import Mathlib

/-!
Shallow embedding of `backend/app/services/recommendation_service.py`
(class `RecommendationService`).

Modelling decisions:
* The Supabase client is an in-memory database `DB`: one list per table
  (in retrieval order), a clock `now`, and a failure oracle `fails` with one
  flag per query call site (a raised exception at that `.execute()`).
* A table query with `.limit(n)` returns the first `n` matching rows in
  retrieval order; `.order(col, desc=True)` is a stable descending sort
  (the spec's tie-break rule).  Python's `list.sort(key=..., reverse=True)`
  is likewise a stable descending sort, embedded by the same `sortByDesc`.
* Python's `list(set(xs))` is modelled as `xs.dedup` (duplicate removal;
  Python's set iteration order is unspecified; the only place where that
  order is observable is the id cap in `get_frequently_bought_together`).
* Floats (`trending_score`, the popularity score) are rationals.
* `try/except` around each strategy body: any failed query makes the
  strategy return `[]`, embedded by matching each query's `Option` result.
-/

namespace RecommendationService

/-- A row of the `products` table. -/
structure Product where
  id : Nat
  category : Option Nat
  price : Rat
  stock_quantity : Int
  purchase_count : Int
  view_count : Int
  trending_score : Rat
  is_active : Bool
  deriving DecidableEq

/-- A row of the `orders` table (the columns the service reads). -/
structure Order where
  id : Nat
  user_id : Nat
  payment_status : String
  deriving DecidableEq

/-- A row of the `order_items` table. -/
structure OrderItem where
  order_id : Nat
  product_id : Nat
  deriving DecidableEq

/-- A row of the `cart_items` table. -/
structure CartItem where
  user_id : Nat
  product_id : Nat
  deriving DecidableEq

/-- A row of the `product_views` table. -/
structure ProductView where
  user_id : Option Nat
  product_id : Nat
  viewed_at : Int
  deriving DecidableEq

/-- A row of the `product_associations` table. -/
structure Assoc where
  product_a_id : Nat
  product_b_id : Nat
  association_count : Int
  deriving DecidableEq

/-- One constructor per `.execute()` call site in the service; the failure
oracle can make any individual call raise. -/
inductive Site where
  | s1orders | s1items | s1cats | s1recs
  | s2cart | s2recs
  | s3views | s3recs
  | s4orders | s4items | s4assocF | s4assocR | s4products
  | s5recs
  | fbtF | fbtR | fbtProducts
  | tvInsert | tvRpc | tvSelect | tvUpdate
  deriving DecidableEq

/-- The database client: tables in retrieval order, a clock, and the
failure oracle. -/
structure DB where
  products : List Product
  orders : List Order
  order_items : List OrderItem
  cart_items : List CartItem
  product_views : List ProductView
  product_associations : List Assoc
  now : Int
  fails : Site → Bool

/-- Execute a query at a call site: the computed rows, or `none` when the
call raises. -/
def runQ (db : DB) (s : Site) (v : α) : Option α :=
  if db.fails s then none else some v

/-- Stable insertion into a list sorted descending by `key`: the new element
goes after every element whose key is ≥ its own. -/
def insertDesc [LinearOrder β] (key : α → β) (a : α) : List α → List α
  | [] => [a]
  | b :: bs => if key b < key a then a :: b :: bs else b :: insertDesc key a bs

/-- Stable descending sort by `key` (Python `sort(key=..., reverse=True)`,
and the model of SQL `ORDER BY ... DESC`). -/
def sortByDesc [LinearOrder β] (key : α → β) (l : List α) : List α :=
  l.foldl (fun acc a => insertDesc key a acc) []

/-- The eligibility filter `.eq('is_active', True).gt('stock_quantity', 0)`
that every product query applies. -/
def productIsEligible (p : Product) : Bool :=
  p.is_active && decide (0 < p.stock_quantity)

/-- The cutoff `(datetime.now() - timedelta(days=30)).isoformat()`, with
`viewed_at` timestamps in seconds. -/
def thirty_days_ago (db : DB) : Int := db.now - 2592000

/-- The popularity score of `_get_trending_products`:
`trending_score * 1.0 + purchase_count * 10.0 + view_count * 0.1`. -/
def popularityScore (p : Product) : Rat :=
  p.trending_score * 1 + (p.purchase_count : Rat) * 10 + (p.view_count : Rat) * (1 / 10)

/-- The category-recommendation block shared verbatim by the purchase-history,
cart and browsing strategies (`recs_query` construction, the
`if exclude_list:` fetch-`limit * 3`-then-filter-in-Python branch, and the
`else` ORDER-BY branch); `none` models a raised query. -/
def categoryRecsBlock (db : DB) (site : Site) (categories : List Nat)
    (exclude_list : List Nat) (limit : Nat) (key : Product → Int) :
    Option (List Product) :=
  let base := db.products.filter (fun p =>
    (match p.category with
     | some c => decide (c ∈ categories)
     | none => false) && productIsEligible p)
  if !exclude_list.isEmpty then
    match runQ db site (base.take (limit * 3)) with
    | none => none
    | some result =>
      some ((sortByDesc key (result.filter (fun p => !(decide (p.id ∈ exclude_list))))).take limit)
  else
    runQ db site ((sortByDesc key base).take limit)

/-- Strategy 1: `_get_purchase_history_recommendations`. -/
def _get_purchase_history_recommendations (db : DB) (user_id : Nat) (limit : Nat)
    (exclude_product_ids : List Nat) : List Product :=
  match runQ db .s1orders ((db.orders.filter
      (fun o => decide (o.user_id = user_id ∧ o.payment_status = "completed"))).map (fun o => o.id)) with
  | none => []
  | some ordersData =>
    if ordersData.isEmpty then [] else
    match runQ db .s1items ((db.order_items.filter
        (fun oi => decide (oi.order_id ∈ ordersData))).map (fun oi => oi.product_id)) with
    | none => []
    | some itemsData =>
      if itemsData.isEmpty then [] else
      let purchased_product_ids := itemsData.dedup
      match runQ db .s1cats ((db.products.filter
          (fun p => decide (p.id ∈ purchased_product_ids) && p.category.isSome)).map (fun p => p.category)) with
      | none => []
      | some catsData =>
        if catsData.isEmpty then [] else
        let categories := (catsData.filterMap id).dedup
        if categories.isEmpty then [] else
        let exclude_list := (exclude_product_ids ++ purchased_product_ids).dedup
        match categoryRecsBlock db .s1recs categories exclude_list limit (fun p => p.purchase_count) with
        | none => []
        | some l => l

/-- Strategy 2: `_get_cart_based_recommendations`; the `cart_items` query
inner-joins `products` for the category. -/
def _get_cart_based_recommendations (db : DB) (user_id : Nat) (limit : Nat)
    (exclude_product_ids : List Nat) : List Product :=
  match runQ db .s2cart ((db.cart_items.filter (fun ci => decide (ci.user_id = user_id))).filterMap
      (fun ci => (db.products.find? (fun p => decide (p.id = ci.product_id))).map
        (fun p => (ci.product_id, p.category)))) with
  | none => []
  | some cartData =>
    if cartData.isEmpty then [] else
    let categories := (cartData.filterMap (fun r => r.2)).dedup
    if categories.isEmpty then [] else
    let cart_product_ids := cartData.map (fun r => r.1)
    let exclude_list := (exclude_product_ids ++ cart_product_ids).dedup
    match categoryRecsBlock db .s2recs categories exclude_list limit (fun p => p.purchase_count) with
    | none => []
    | some l => l

/-- Strategy 3: `_get_browsing_history_recommendations` (views of the last
30 days, inner-joined with `products`). -/
def _get_browsing_history_recommendations (db : DB) (user_id : Nat) (limit : Nat)
    (exclude_product_ids : List Nat) : List Product :=
  match runQ db .s3views ((db.product_views.filter
      (fun v => decide (v.user_id = some user_id) && decide (thirty_days_ago db ≤ v.viewed_at))).filterMap
      (fun v => (db.products.find? (fun p => decide (p.id = v.product_id))).map
        (fun p => (v.product_id, p.category)))) with
  | none => []
  | some viewsData =>
    if viewsData.isEmpty then [] else
    let categories := (viewsData.filterMap (fun r => r.2)).dedup
    let viewed_product_ids := viewsData.map (fun r => r.1)
    let exclude_list := (exclude_product_ids ++ viewed_product_ids).dedup
    if categories.isEmpty then [] else
    match categoryRecsBlock db .s3recs categories exclude_list limit (fun p => p.view_count) with
    | none => []
    | some l => l

/-- Strategy 4: `_get_collaborative_recommendations`. -/
def _get_collaborative_recommendations (db : DB) (user_id : Nat) (limit : Nat)
    (exclude_product_ids : List Nat) : List Product :=
  match runQ db .s4orders ((db.orders.filter
      (fun o => decide (o.user_id = user_id ∧ o.payment_status = "completed"))).map (fun o => o.id)) with
  | none => []
  | some ordersData =>
    if ordersData.isEmpty then [] else
    match runQ db .s4items ((db.order_items.filter
        (fun oi => decide (oi.order_id ∈ ordersData))).map (fun oi => oi.product_id)) with
    | none => []
    | some itemsData =>
      if itemsData.isEmpty then [] else
      let user_product_ids := itemsData
      let finish : List Nat → List Product := fun recommended_raw =>
        let exclude_list := exclude_product_ids ++ user_product_ids
        let recommended_product_ids := recommended_raw.filter (fun pid => !(decide (pid ∈ exclude_list)))
        if recommended_product_ids.isEmpty then [] else
        match runQ db .s4products ((db.products.filter
            (fun p => decide (p.id ∈ recommended_product_ids) && productIsEligible p)).take limit) with
        | none => []
        | some result => result
      match runQ db .s4assocF ((sortByDesc (fun a => a.association_count)
          (db.product_associations.filter (fun a => decide (a.product_a_id ∈ user_product_ids)))).take (limit * 2)) with
      | none => []
      | some assocF =>
        if assocF.isEmpty then
          match runQ db .s4assocR ((sortByDesc (fun a => a.association_count)
              (db.product_associations.filter (fun a => decide (a.product_b_id ∈ user_product_ids)))).take (limit * 2)) with
          | none => []
          | some assocR =>
            if assocR.isEmpty then [] else finish (assocR.map (fun a => a.product_a_id))
        else finish (assocF.map (fun a => a.product_b_id))

/-- Strategies 5 & 6: `_get_trending_products` (fetch a window of eligible
products, filter exclusions in Python, rank by popularity score). -/
def _get_trending_products (db : DB) (limit : Nat) (exclude_product_ids : List Nat) :
    List Product :=
  let fetch_limit := if !exclude_product_ids.isEmpty then limit * 5 else limit * 2
  match runQ db .s5recs ((db.products.filter productIsEligible).take fetch_limit) with
  | none => []
  | some resultData =>
    if resultData.isEmpty then [] else
    let products := if !exclude_product_ids.isEmpty then
        resultData.filter (fun p => !(decide (p.id ∈ exclude_product_ids)))
      else resultData
    (sortByDesc popularityScore products).take limit

/-- One `if len(recommendations) < limit:` block of the aggregator: run the
strategy with the remaining quota and the exclusions extended by the ids
accumulated so far. -/
def fillStep (limit : Nat) (E : List Nat) (recs : List Product)
    (strat : Nat → List Nat → List Product) : List Product :=
  if recs.length < limit then
    recs ++ strat (limit - recs.length) (E ++ recs.map (fun p => p.id))
  else recs

/-- Strategies 2–4 of `get_personalized_recommendations`, given the result
of strategy 1. -/
def afterStrat1 (db : DB) (user_id : Nat) (limit : Nat) (E : List Nat)
    (r1 : List Product) : List Product :=
  fillStep limit E
    (fillStep limit E
      (fillStep limit E r1 (_get_cart_based_recommendations db user_id))
      (_get_browsing_history_recommendations db user_id))
    (_get_collaborative_recommendations db user_id)

/-- The accumulated `recommendations` just before the trending fill. -/
def recsBeforeTrending (db : DB) (user_id : Option Nat) (limit : Nat)
    (E : List Nat) : List Product :=
  match user_id with
  | some uid => afterStrat1 db uid limit E (_get_purchase_history_recommendations db uid limit E)
  | none => []

/-- The aggregator `get_personalized_recommendations`: strategies 1–4 for a known user,
the trending fill, and the final `recommendations[:limit]`. -/
def get_personalized_recommendations (db : DB) (user_id : Option Nat) (limit : Nat)
    (exclude_product_ids : List Nat) : List Product :=
  (fillStep limit exclude_product_ids (recsBeforeTrending db user_id limit exclude_product_ids)
    (_get_trending_products db)).take limit

/-- The query `get_frequently_bought_together`: top-`limit` associations in each
orientation, ids united and de-duplicated, capped at `limit`, then the
product-detail query (eligible products, retrieval order, no limit). -/
def get_frequently_bought_together (db : DB) (product_id : Nat) (limit : Nat) :
    List Product :=
  match runQ db .fbtF ((sortByDesc (fun a => a.association_count)
      (db.product_associations.filter (fun a => decide (a.product_a_id = product_id)))).take limit) with
  | none => []
  | some assocF =>
    let product_ids := assocF.map (fun a => a.product_b_id)
    match runQ db .fbtR ((sortByDesc (fun a => a.association_count)
        (db.product_associations.filter (fun a => decide (a.product_b_id = product_id)))).take limit) with
    | none => []
    | some assocR =>
      let product_ids := product_ids ++ assocR.map (fun a => a.product_a_id)
      let product_ids := product_ids.dedup.take limit
      if product_ids.isEmpty then [] else
      match runQ db .fbtProducts (db.products.filter
          (fun p => decide (p.id ∈ product_ids) && productIsEligible p)) with
      | none => []
      | some result => result

/-- Supabase `.single()`: succeeds only when the query returned exactly one row. -/
def single? (l : List α) : Option α :=
  match l with
  | [a] => some a
  | _ => none

/-- Modelled from the spec: the `increment_view_count` SQL function called
through `db.rpc` is not part of `src/backend`; per §4.4 (view tracking is
best-effort) and Scenario C, the increment fails when the product does not
exist, besides failing when the call itself raises. -/
def rpcIncrementViewCount (db : DB) (product_id : Nat) : Option Unit :=
  if db.fails .tvRpc || !(db.products.any (fun p => decide (p.id = product_id))) then none
  else some ()

/-- The fallback fetch in `track_product_view`:
`select('view_count').eq('id', product_id).single().execute()`. -/
def selectSingleViewCount (db : DB) (product_id : Nat) : Option Product :=
  if db.fails .tvSelect then none
  else single? (db.products.filter (fun p => decide (p.id = product_id)))

/-- View tracking `track_product_view`: insert the view row, then increment `view_count`
via the RPC, falling back to fetch-and-update inside the inner `except`;
any exception escaping to the outer handler yields `False`. -/
def track_product_view (db : DB) (product_id : Nat) (user_id : Option Nat)
    (session_id : Option Nat) (source : Option String) : Bool :=
  let attempt : Option Bool :=
    match runQ db .tvInsert () with
    | none => none
    | some _ =>
      match rpcIncrementViewCount db product_id with
      | some _ => some true
      | none =>
        match selectSingleViewCount db product_id with
        | none => none
        | some pr =>
          match runQ db .tvUpdate (pr.view_count + 1) with
          | none => none
          | some _ => some true
  match attempt with
  | some b => b
  | none => false

/-- Value-threaded variant of strategy 1 for the frame claim: alongside the
result it returns the final value of the caller-supplied
`exclude_product_ids` object.  Every statement of the source that touches
the parameter only reads it (`exclude_product_ids + purchased_product_ids`
builds a fresh list), so each exit pairs the result with the parameter's
current binding. -/
def _get_purchase_history_recommendationsTr (db : DB) (user_id : Nat) (limit : Nat)
    (exclude_product_ids : List Nat) : List Product × List Nat :=
  match runQ db .s1orders ((db.orders.filter
      (fun o => decide (o.user_id = user_id ∧ o.payment_status = "completed"))).map (fun o => o.id)) with
  | none => ([], exclude_product_ids)
  | some ordersData =>
    if ordersData.isEmpty then ([], exclude_product_ids) else
    match runQ db .s1items ((db.order_items.filter
        (fun oi => decide (oi.order_id ∈ ordersData))).map (fun oi => oi.product_id)) with
    | none => ([], exclude_product_ids)
    | some itemsData =>
      if itemsData.isEmpty then ([], exclude_product_ids) else
      let purchased_product_ids := itemsData.dedup
      match runQ db .s1cats ((db.products.filter
          (fun p => decide (p.id ∈ purchased_product_ids) && p.category.isSome)).map (fun p => p.category)) with
      | none => ([], exclude_product_ids)
      | some catsData =>
        if catsData.isEmpty then ([], exclude_product_ids) else
        let categories := (catsData.filterMap id).dedup
        if categories.isEmpty then ([], exclude_product_ids) else
        let exclude_list := (exclude_product_ids ++ purchased_product_ids).dedup
        match categoryRecsBlock db .s1recs categories exclude_list limit (fun p => p.purchase_count) with
        | none => ([], exclude_product_ids)
        | some l => (l, exclude_product_ids)

/-- Value-threaded aggregator for the frame claim: strategy 1 receives the
caller's `exclude_product_ids` object itself (and hands its final value
back); the later strategies receive freshly built `E ++ ids` lists, so the
caller's object flows unchanged to the return. -/
def get_personalized_recommendationsTr (db : DB) (user_id : Option Nat) (limit : Nat)
    (exclude_product_ids : List Nat) : List Product × List Nat :=
  match user_id with
  | some uid =>
    let r1p := _get_purchase_history_recommendationsTr db uid limit exclude_product_ids
    let r1 := r1p.1
    let E1 := r1p.2
    let r2 := if r1.length < limit then
        r1 ++ _get_cart_based_recommendations db uid (limit - r1.length) (E1 ++ r1.map (fun p => p.id))
      else r1
    let r3 := if r2.length < limit then
        r2 ++ _get_browsing_history_recommendations db uid (limit - r2.length) (E1 ++ r2.map (fun p => p.id))
      else r2
    let r4 := if r3.length < limit then
        r3 ++ _get_collaborative_recommendations db uid (limit - r3.length) (E1 ++ r3.map (fun p => p.id))
      else r3
    let r5 := if r4.length < limit then
        r4 ++ _get_trending_products db (limit - r4.length) (E1 ++ r4.map (fun p => p.id))
      else r4
    (r5.take limit, E1)
  | none =>
    let recs : List Product := []
    let r5 := if recs.length < limit then
        recs ++ _get_trending_products db (limit - recs.length)
          (exclude_product_ids ++ recs.map (fun p => p.id))
      else recs
    (r5.take limit, exclude_product_ids)

/-! ### Statement-level definitions for the claims -/

/-- The aggregator written as an explicit chain of fill steps over given
strategy outputs: used to state that a failed strategy contributes nothing
while the remaining strategies run unchanged.
`get_personalized_recommendations db (some uid) limit E` is definitionally
`chain limit E` applied to the five strategies. -/
def chain (limit : Nat) (E : List Nat) (r1 : List Product)
    (s2 s3 s4 s5 : Nat → List Nat → List Product) : List Product :=
  (fillStep limit E
    (fillStep limit E (fillStep limit E (fillStep limit E r1 s2) s3) s4) s5).take limit

/-- The forward-orientation association window strategy 4 inspects: the top
`q * 2` pairs (count-descending) whose left side is one of the user's
completed-purchase product ids.  Strategy 4 executes its reverse-orientation
query only when this window is empty. -/
def collabForwardWindow (db : DB) (uid q : Nat) : List Assoc :=
  (sortByDesc (fun a => a.association_count)
    (db.product_associations.filter (fun a => decide (a.product_a_id ∈
      (db.order_items.filter (fun oi => decide (oi.order_id ∈
        (db.orders.filter
          (fun o => decide (o.user_id = uid ∧ o.payment_status = "completed"))).map
          (fun o => o.id)))).map (fun oi => oi.product_id))))).take (q * 2)

/-- The fetch window size of `_get_trending_products`:
`limit * 5 if exclude_product_ids else limit * 2`. -/
def trendingFetchLimit (limit : Nat) (E : List Nat) : Nat :=
  if !E.isEmpty then limit * 5 else limit * 2

/-- The eligible products the trending query actually retrieves (its fetch
window), minus the excluded ids. -/
def trendingWindow (db : DB) (limit : Nat) (E : List Nat) : List Product :=
  ((db.products.filter productIsEligible).take (trendingFetchLimit limit E)).filter
    (fun p => !(decide (p.id ∈ E)))

/-- The anonymous-request output as the claim words it: all eligible catalog
products outside `E`, ranked by popularity score (stable), truncated. -/
def trendingClaimed (db : DB) (limit : Nat) (E : List Nat) : List Product :=
  (sortByDesc popularityScore
    ((db.products.filter productIsEligible).filter (fun p => !(decide (p.id ∈ E))))).take limit

/-- The amended description: as `trendingClaimed`, but restricted to the
fetch window the code retrieves before filtering. -/
def trendingWindowedSpec (db : DB) (limit : Nat) (E : List Nat) : List Product :=
  (sortByDesc popularityScore (trendingWindow db limit E)).take limit

/-- C5's output as the claim words it: the other-side products of the
association pairs matching the user's completed purchases, in
association-count-descending order, excluding purchased ids and `E`
(reverse orientation only when the forward lookup yields nothing). -/
def collaborativeClaimed (db : DB) (user_id : Nat) (limit : Nat) (E : List Nat) : List Product :=
  let order_ids := (db.orders.filter
    (fun o => decide (o.user_id = user_id ∧ o.payment_status = "completed"))).map (fun o => o.id)
  let purchased := (db.order_items.filter
    (fun oi => decide (oi.order_id ∈ order_ids))).map (fun oi => oi.product_id)
  let forward := sortByDesc (fun a => a.association_count)
    (db.product_associations.filter (fun a => decide (a.product_a_id ∈ purchased)))
  let candidate_ids :=
    if forward.isEmpty then
      (sortByDesc (fun a => a.association_count)
        (db.product_associations.filter (fun a => decide (a.product_b_id ∈ purchased)))).map
        (fun a => a.product_a_id)
    else forward.map (fun a => a.product_b_id)
  let candidate_ids := candidate_ids.filter (fun pid => !(decide (pid ∈ E ++ purchased)))
  (candidate_ids.filterMap (fun pid =>
    db.products.find? (fun p => decide (p.id = pid) && productIsEligible p))).take limit

/-- C5's amended description: candidate ids come from the top `limit * 2`
association pairs in count-descending order (reverse orientation only when
the forward lookup yields nothing), minus purchased ids and `E`; the
returned products are the eligible catalog rows with those ids, in catalog
retrieval order, capped at `limit`. -/
def collaborativeAmended (db : DB) (user_id : Nat) (limit : Nat) (E : List Nat) : List Product :=
  let order_ids := (db.orders.filter
    (fun o => decide (o.user_id = user_id ∧ o.payment_status = "completed"))).map (fun o => o.id)
  let purchased := (db.order_items.filter
    (fun oi => decide (oi.order_id ∈ order_ids))).map (fun oi => oi.product_id)
  let forward := (sortByDesc (fun a => a.association_count)
    (db.product_associations.filter (fun a => decide (a.product_a_id ∈ purchased)))).take (limit * 2)
  let candidate_ids :=
    if forward.isEmpty then
      ((sortByDesc (fun a => a.association_count)
        (db.product_associations.filter (fun a => decide (a.product_b_id ∈ purchased)))).take
        (limit * 2)).map (fun a => a.product_a_id)
    else forward.map (fun a => a.product_b_id)
  let candidate_ids := candidate_ids.filter (fun pid => !(decide (pid ∈ E ++ purchased)))
  (db.products.filter (fun p => decide (p.id ∈ candidate_ids) && productIsEligible p)).take limit

/-- C6's output as the claim words it: the union of the top-`limit`
associated products of both orientations, de-duplicated, capped at `limit`
(set order modelled as duplicate removal on the concatenation). -/
def fbtClaimed (db : DB) (product_id : Nat) (limit : Nat) : List Product :=
  let forward_ids := ((sortByDesc (fun a => a.association_count)
    (db.product_associations.filter (fun a => decide (a.product_a_id = product_id)))).take limit).map
    (fun a => a.product_b_id)
  let reverse_ids := ((sortByDesc (fun a => a.association_count)
    (db.product_associations.filter (fun a => decide (a.product_b_id = product_id)))).take limit).map
    (fun a => a.product_a_id)
  let ids := (forward_ids ++ reverse_ids).dedup.take limit
  ids.filterMap (fun i => db.products.find? (fun p => decide (p.id = i)))

/-- C6's amended description: the same capped id union, but only its active,
in-stock products are returned (the eligibility filter runs after the id
cap), in catalog retrieval order. -/
def fbtAmended (db : DB) (product_id : Nat) (limit : Nat) : List Product :=
  let forward_ids := ((sortByDesc (fun a => a.association_count)
    (db.product_associations.filter (fun a => decide (a.product_a_id = product_id)))).take limit).map
    (fun a => a.product_b_id)
  let reverse_ids := ((sortByDesc (fun a => a.association_count)
    (db.product_associations.filter (fun a => decide (a.product_b_id = product_id)))).take limit).map
    (fun a => a.product_a_id)
  let ids := (forward_ids ++ reverse_ids).dedup.take limit
  db.products.filter (fun p => decide (p.id ∈ ids) && productIsEligible p)

/-! ### Concrete databases for witnesses and counterexamples -/

/-- The no-failure oracle. -/
def noFails : Site → Bool := fun _ => false

def pA : Product := ⟨1, some 10, 5, 3, 2, 0, 1, true⟩

def pB : Product := ⟨2, some 10, 5, 3, 1, 0, 1, true⟩

/-- Two eligible products, no activity data. -/
def wdbA : DB := ⟨[pA, pB], [], [], [], [], [], 0, noFails⟩

/-- An eligible catalog product with the given id. -/
def qp (i : Nat) : Product := ⟨i, none, 1, 1, 0, 0, 0, true⟩

/-- Six eligible products: with `limit = 1` and `E = [1,2,3,4,5]` the
trending fetch window (5 rows) is consumed entirely by excluded ids. -/
def cdbQuota : DB := ⟨[qp 1, qp 2, qp 3, qp 4, qp 5, qp 6], [], [], [], [], [], 0, noFails⟩

def tLow1 : Product := ⟨1, none, 1, 1, 0, 0, 1, true⟩

def tLow2 : Product := ⟨2, none, 1, 1, 0, 0, 1, true⟩

def tHigh : Product := ⟨3, none, 1, 1, 0, 0, 5, true⟩

/-- Three eligible products where the highest-scoring one sits outside the
`limit * 2` anonymous fetch window. -/
def cdbTrend : DB := ⟨[tLow1, tLow2, tHigh], [], [], [], [], [], 0, noFails⟩

def pX : Product := ⟨2, none, 1, 1, 0, 0, 0, true⟩

def pY : Product := ⟨3, none, 1, 1, 0, 0, 0, true⟩

/-- User 1 bought product 1; product 3 is the stronger association
(count 5 vs 1) but sits after product 2 in catalog retrieval order. -/
def cdbCollab : DB :=
  ⟨[pX, pY], [⟨100, 1, "completed"⟩], [⟨100, 1⟩], [], [],
    [⟨1, 2, 1⟩, ⟨1, 3, 5⟩], 0, noFails⟩

/-- Product 2 is associated with product 1 but inactive. -/
def cdbFbt : DB :=
  ⟨[⟨2, none, 1, 1, 0, 0, 0, false⟩], [], [], [], [], [⟨1, 2, 3⟩], 0, noFails⟩

def w1 : Product := ⟨1, some 20, 1, 1, 0, 0, 0, true⟩

def w2 : Product := ⟨2, some 20, 1, 1, 3, 0, 0, true⟩

def w5 : Product := ⟨5, some 30, 1, 1, 0, 0, 0, true⟩

def w6 : Product := ⟨6, some 30, 1, 1, 0, 0, 0, true⟩

/-- User 1 bought product 1 (category 20) and has product 5 (category 30)
in the cart: the purchase-history strategy yields product 2, the cart
strategy yields product 6. -/
def wdbC7 : DB :=
  ⟨[w1, w2, w5, w6], [⟨200, 1, "completed"⟩], [⟨200, 1⟩], [⟨1, 5⟩], [], [], 0, noFails⟩

/-- A database whose strategy-1 orders query raises. -/
def wdbFail : DB :=
  ⟨[qp 1, qp 2], [⟨300, 1, "completed"⟩], [⟨300, 2⟩], [], [], [], 0,
    fun s => match s with
      | .s1orders => true
      | _ => false⟩

/-! ### Basic lemmas about the query and sorting primitives -/

theorem runQ_cases (db : DB) (s : Site) (v : α) :
    runQ db s v = none ∨ runQ db s v = some v := by
  unfold runQ
  by_cases h : db.fails s <;> simp [h]

theorem runQ_eq_some {db : DB} {s : Site} {v a : α} (h : runQ db s v = some a) :
    a = v := by
  unfold runQ at h
  by_cases hf : db.fails s <;> simp [hf] at h
  exact h.symm

theorem runQ_nofail {db : DB} {s : Site} (h : db.fails s = false) (v : α) :
    runQ db s v = some v := by
  simp [runQ, h]

theorem runQ_eq_some_iff {db : DB} {s : Site} {v a : α} :
    runQ db s v = some a ↔ db.fails s = false ∧ a = v := by
  unfold runQ
  by_cases h : db.fails s <;> simp [h, eq_comm]

theorem insertDesc_perm [LinearOrder β] (key : α → β) (a : α) (l : List α) :
    List.Perm (insertDesc key a l) (a :: l) := by
  induction l with
  | nil => simp [insertDesc]
  | cons b bs ih =>
    unfold insertDesc
    by_cases h : key b < key a
    · simp [h]
    · simp only [h, if_false]
      exact (ih.cons b).trans (List.Perm.swap a b bs)

theorem foldl_insertDesc_perm [LinearOrder β] (key : α → β) (l : List α) :
    ∀ acc : List α, List.Perm (l.foldl (fun acc a => insertDesc key a acc) acc) (acc ++ l) := by
  induction l with
  | nil => intro acc; simp
  | cons a t ih =>
    intro acc
    have h1 := ih (insertDesc key a acc)
    have h2 : List.Perm (insertDesc key a acc ++ t) ((a :: acc) ++ t) :=
      (insertDesc_perm key a acc).append_right t
    exact (h1.trans h2).trans List.perm_middle.symm

theorem sortByDesc_perm [LinearOrder β] (key : α → β) (l : List α) :
    List.Perm (sortByDesc key l) l := by
  simpa using foldl_insertDesc_perm key l []

theorem sortByDesc_nil [LinearOrder β] (key : α → β) : sortByDesc key [] = [] := rfl

theorem mem_sortByDesc [LinearOrder β] {key : α → β} {l : List α} {a : α}
    (h : a ∈ sortByDesc key l) : a ∈ l :=
  (sortByDesc_perm key l).mem_iff.mp h

theorem length_sortByDesc [LinearOrder β] (key : α → β) (l : List α) :
    (sortByDesc key l).length = l.length :=
  (sortByDesc_perm key l).length_eq

/-! ### A common shape for strategy outputs -/

/-- The invariant every strategy output (and every accumulated prefix of the
aggregator) satisfies: drawn from the catalog, disjoint from the exclusion
list `E`, at most `limit` long, and duplicate-free by id whenever the
catalog is. -/
def GoodStrat (db : DB) (E : List Nat) (limit : Nat) (out : List Product) : Prop :=
  (∀ p ∈ out, p ∈ db.products ∧ p.id ∉ E) ∧
  out.length ≤ limit ∧
  ((db.products.map Product.id).Nodup → (out.map Product.id).Nodup)

theorem goodStrat_nil (db : DB) (E : List Nat) (limit : Nat) :
    GoodStrat db E limit [] := by
  refine ⟨by simp, by simp, by simp⟩

/-- Establishes `GoodStrat` for any `(sortByDesc key l).take limit` with `l` drawn from
the catalog and filtered against `E`. -/
theorem goodStrat_sorted_take [LinearOrder β] {db : DB} {E : List Nat} {limit : Nat}
    {l : List Product} (key : Product → β)
    (hsub : l.Sublist db.products) (hexcl : ∀ p ∈ l, p.id ∉ E) :
    GoodStrat db E limit ((sortByDesc key l).take limit) := by
  refine ⟨?_, ?_, ?_⟩
  · intro p hp
    have hl : p ∈ l := mem_sortByDesc (List.mem_of_mem_take hp)
    exact ⟨hsub.subset hl, hexcl p hl⟩
  · simp [List.length_take, length_sortByDesc]
  · intro hnod
    have h1 : (l.map Product.id).Nodup := ((hsub.map Product.id).nodup hnod)
    have h2 : ((sortByDesc key l).map Product.id).Nodup :=
      (((sortByDesc_perm key l).map Product.id).nodup_iff).mpr h1
    have h3 := (List.take_sublist limit ((sortByDesc key l).map Product.id)).nodup h2
    simpa [List.map_take] using h3

theorem goodStrat_mono {db : DB} {E excl : List Nat} {limit : Nat} {out : List Product}
    (hsub : ∀ x ∈ E, x ∈ excl) (h : GoodStrat db excl limit out) :
    GoodStrat db E limit out := by
  obtain ⟨h1, h2, h3⟩ := h
  exact ⟨fun p hp => ⟨(h1 p hp).1, fun hmem => (h1 p hp).2 (hsub _ hmem)⟩, h2, h3⟩

/-- Establishes `GoodStrat` for any `(db.products.filter q).take limit` whose predicate
rules out ids of `E`. -/
theorem goodStrat_take_filter {db : DB} {E : List Nat} {limit : Nat} (q : Product → Bool)
    (hq : ∀ p, q p = true → p.id ∉ E) :
    GoodStrat db E limit ((db.products.filter q).take limit) := by
  refine ⟨?_, ?_, ?_⟩
  · intro p hp
    have h1 : p ∈ db.products.filter q := List.mem_of_mem_take hp
    have h2 := List.mem_filter.mp h1
    exact ⟨h2.1, hq p h2.2⟩
  · simp [List.length_take]
  · intro hnod
    have hs : ((db.products.filter q).take limit).Sublist db.products :=
      (List.take_sublist limit (db.products.filter q)).trans (List.filter_sublist db.products)
    exact (hs.map Product.id).nodup hnod

theorem categoryRecsBlock_good {db : DB} {site : Site} {categories exclude_list : List Nat}
    {limit : Nat} {key : Product → Int} {out : List Product}
    (h : categoryRecsBlock db site categories exclude_list limit key = some out) :
    GoodStrat db exclude_list limit out := by
  simp only [categoryRecsBlock] at h
  split at h
  · -- the `if exclude_list:` branch: fetch `limit * 3`, filter in Python
    split at h
    · exact absurd h (by simp)
    next result heq =>
      have hres := runQ_eq_some heq
      obtain rfl : out = (sortByDesc key (result.filter (fun p => !(decide (p.id ∈ exclude_list))))).take limit := by
        exact (Option.some.injEq _ _).mp h |>.symm
      refine goodStrat_sorted_take key ?_ ?_
      · subst hres
        exact ((List.filter_sublist _).trans (List.take_sublist _ _)).trans (List.filter_sublist _)
      · intro p hp
        have := (List.mem_filter.mp hp).2
        simpa using this
  · -- `exclude_list` empty: server-side order-by
    next hne =>
    have hnil : exclude_list = [] := by
      by_cases hc : exclude_list.isEmpty
      · exact List.isEmpty_iff.mp hc
      · simp [hc] at hne
    have hres := runQ_eq_some h
    subst hres
    refine goodStrat_sorted_take key (List.filter_sublist _) ?_
    intro p _
    simp [hnil]

theorem strat1_good (db : DB) (uid limit : Nat) (E : List Nat) :
    GoodStrat db E limit (_get_purchase_history_recommendations db uid limit E) := by
  simp only [_get_purchase_history_recommendations]
  repeat' split
  any_goals exact goodStrat_nil _ _ _
  next l heq =>
    refine goodStrat_mono ?_ (categoryRecsBlock_good heq)
    intro x hx
    exact List.mem_dedup.mpr (List.mem_append_left _ hx)

theorem strat2_good (db : DB) (uid limit : Nat) (E : List Nat) :
    GoodStrat db E limit (_get_cart_based_recommendations db uid limit E) := by
  simp only [_get_cart_based_recommendations]
  repeat' split
  any_goals exact goodStrat_nil _ _ _
  next l heq =>
    refine goodStrat_mono ?_ (categoryRecsBlock_good heq)
    intro x hx
    exact List.mem_dedup.mpr (List.mem_append_left _ hx)

theorem strat3_good (db : DB) (uid limit : Nat) (E : List Nat) :
    GoodStrat db E limit (_get_browsing_history_recommendations db uid limit E) := by
  simp only [_get_browsing_history_recommendations]
  repeat' split
  any_goals exact goodStrat_nil _ _ _
  next l heq =>
    refine goodStrat_mono ?_ (categoryRecsBlock_good heq)
    intro x hx
    exact List.mem_dedup.mpr (List.mem_append_left _ hx)

theorem strat4_good (db : DB) (uid limit : Nat) (E : List Nat) :
    GoodStrat db E limit (_get_collaborative_recommendations db uid limit E) := by
  simp only [_get_collaborative_recommendations]
  repeat' split
  any_goals exact goodStrat_nil _ _ _
  all_goals
    next result heq =>
      obtain rfl := runQ_eq_some heq
      refine goodStrat_take_filter _ ?_
      intro p hp hmem
      have h1 := (Bool.and_eq_true _ _).mp hp |>.1
      have h2 := of_decide_eq_true h1
      have h3 := (List.mem_filter.mp h2).2
      simp only [Bool.not_eq_true', decide_eq_false_iff_not] at h3
      exact h3 (List.mem_append_left _ hmem)

theorem strat5_good (db : DB) (limit : Nat) (E : List Nat) :
    GoodStrat db E limit (_get_trending_products db limit E) := by
  simp only [_get_trending_products]
  split
  · exact goodStrat_nil _ _ _
  next resultData hrunq =>
    have hres := runQ_eq_some hrunq
    have hsub : resultData.Sublist db.products := by
      rw [hres]; exact (List.take_sublist _ _).trans (List.filter_sublist _)
    split
    · exact goodStrat_nil _ _ _
    split
    · -- exclusions non-empty: the Python filter was applied
      refine goodStrat_sorted_take popularityScore ((List.filter_sublist _).trans hsub) ?_
      intro p hp
      have := (List.mem_filter.mp hp).2
      simpa using this
    · -- exclusions empty
      next hne =>
      have hnil : E = [] := by
        by_cases hc : E.isEmpty
        · exact List.isEmpty_iff.mp hc
        · simp [hc] at hne
      refine goodStrat_sorted_take popularityScore hsub ?_
      intro p _
      simp [hnil]

theorem fillStep_good {db : DB} {E : List Nat} {limit : Nat} {recs : List Product}
    {strat : Nat → List Nat → List Product}
    (hr : GoodStrat db E limit recs)
    (hs : ∀ q E', GoodStrat db E' q (strat q E')) :
    GoodStrat db E limit (fillStep limit E recs strat) := by
  unfold fillStep
  split
  · obtain ⟨hr1, hr2, hr3⟩ := hr
    obtain ⟨hs1, hs2, hs3⟩ := hs (limit - recs.length) (E ++ recs.map (fun p => p.id))
    refine ⟨?_, ?_, ?_⟩
    · intro p hp
      rcases List.mem_append.mp hp with h | h
      · exact hr1 p h
      · obtain ⟨hp1, hp2⟩ := hs1 p h
        exact ⟨hp1, fun hmem => hp2 (List.mem_append_left _ hmem)⟩
    · rw [List.length_append]; omega
    · intro hnod
      rw [List.map_append]
      refine List.Nodup.append (hr3 hnod) (hs3 hnod) ?_
      intro x hx1 hx2
      obtain ⟨p, hp, rfl⟩ := List.mem_map.mp hx2
      exact (hs1 p hp).2 (List.mem_append_right _ hx1)
  · exact hr

theorem recsBeforeTrending_good (db : DB) (u : Option Nat) (limit : Nat) (E : List Nat) :
    GoodStrat db E limit (recsBeforeTrending db u limit E) := by
  cases u with
  | none => exact goodStrat_nil _ _ _
  | some uid =>
    simp only [recsBeforeTrending, afterStrat1]
    exact fillStep_good
      (fillStep_good
        (fillStep_good (strat1_good db uid limit E) (fun q E' => strat2_good db uid q E'))
        (fun q E' => strat3_good db uid q E'))
      (fun q E' => strat4_good db uid q E')

theorem get_personalized_good (db : DB) (u : Option Nat) (limit : Nat) (E : List Nat) :
    GoodStrat db E limit (get_personalized_recommendations db u limit E) := by
  have h := fillStep_good (recsBeforeTrending_good db u limit E)
    (fun q E' => strat5_good db q E')
  obtain ⟨h1, h2, h3⟩ := h
  refine ⟨?_, ?_, ?_⟩
  · intro p hp
    exact h1 p (List.mem_of_mem_take hp)
  · simp only [get_personalized_recommendations, List.length_take]
    omega
  · intro hnod
    have hs := (List.take_sublist limit
      (fillStep limit E (recsBeforeTrending db u limit E) (_get_trending_products db))).map Product.id
    exact hs.nodup (h3 hnod)

/-! ### Helper lemmas about the trending strategy -/

theorem strat5_length_eq {db : DB} {q : Nat} {E : List Nat}
    (hf : db.fails Site.s5recs = false) (hq : 0 < q)
    (hw : q ≤ (trendingWindow db q E).length) :
    (_get_trending_products db q E).length = q := by
  simp only [trendingWindow, trendingFetchLimit] at hw
  simp only [_get_trending_products]
  split
  · next hnone => simp [runQ, hf] at hnone
  next resultData hrunq =>
    have hres := runQ_eq_some hrunq
    have hw' : q ≤ (resultData.filter (fun p => !(decide (p.id ∈ E)))).length := by
      rw [hres]; exact hw
    have hlen : q ≤ resultData.length :=
      le_trans hw' (List.length_filter_le _ _)
    split
    · next hemp =>
      rw [List.isEmpty_iff.mp hemp] at hlen
      simp at hlen
      omega
    split
    · rw [List.length_take, length_sortByDesc]
      omega
    · next hne =>
      have hnil : E = [] := by
        by_cases hc : E.isEmpty
        · exact List.isEmpty_iff.mp hc
        · simp [hc] at hne
      rw [List.length_take, length_sortByDesc]
      omega

theorem strat5_eq_windowed {db : DB} {limit : Nat} {E : List Nat}
    (hf : db.fails Site.s5recs = false) :
    _get_trending_products db limit E = trendingWindowedSpec db limit E := by
  simp only [_get_trending_products]
  split
  · next hnone => simp [runQ, hf] at hnone
  next resultData hrunq =>
    have hres := runQ_eq_some hrunq
    have hwin : trendingWindow db limit E = resultData.filter (fun p => !(decide (p.id ∈ E))) := by
      rw [hres]; rfl
    split
    · next hemp =>
      rw [List.isEmpty_iff.mp hemp] at hwin
      simp only [List.filter_nil] at hwin
      simp [trendingWindowedSpec, hwin, sortByDesc]
    split
    · rw [trendingWindowedSpec, hwin]
    · next hne =>
      have hnil : E = [] := by
        by_cases hc : E.isEmpty
        · exact List.isEmpty_iff.mp hc
        · simp [hc] at hne
      rw [trendingWindowedSpec, hwin]
      subst hnil
      simp

/-! ### Claims -/

/-- C1: for every call to `get_personalized_recommendations` with any
`user_id`, `limit > 0` and caller-supplied exclusion list `E`, no product
whose id is in `E` appears in the returned list. -/
theorem c1_respects_exclusions (db : DB) (user_id : Option Nat) (limit : Nat)
    (E : List Nat) (hlim : 0 < limit) (p : Product)
    (hp : p ∈ get_personalized_recommendations db user_id limit E) : p.id ∉ E :=
  ((get_personalized_good db user_id limit E).1 p hp).2

theorem c1_respects_exclusions_witness :
    0 < 1 ∧ pB ∈ get_personalized_recommendations wdbA none 1 [1] ∧ pB.id ∉ [1] :=
  ⟨by decide, by with_unfolding_all decide,
    c1_respects_exclusions wdbA none 1 [1] (by decide) pB (by with_unfolding_all decide)⟩

/-- C2: for every call to `get_personalized_recommendations` over a catalog
with primary-key-distinct product ids, the returned list contains each
product id at most once, across all contributing strategies. -/
theorem c2_no_duplicates (db : DB) (user_id : Option Nat) (limit : Nat) (E : List Nat)
    (hcat : (db.products.map Product.id).Nodup) :
    ((get_personalized_recommendations db user_id limit E).map Product.id).Nodup :=
  (get_personalized_good db user_id limit E).2.2 hcat

theorem c2_no_duplicates_witness :
    (wdbA.products.map Product.id).Nodup ∧
      ((get_personalized_recommendations wdbA (some 7) 5 []).map Product.id).Nodup :=
  ⟨by decide, c2_no_duplicates wdbA (some 7) 5 [] (by decide)⟩

/-- C3 (counterexample): the output can be shorter than `limit` even though
the eligible pool outside `E` has at least `limit` products — with
`limit = 1` and five excluded ids, the `limit * 5` trending fetch window is
exhausted by excluded products and the sixth eligible product is never
retrieved. -/
theorem c3_quota_counterexample :
    (get_personalized_recommendations cdbQuota none 1 [1, 2, 3, 4, 5]).length = 0 ∧
      1 ≤ ((cdbQuota.products.filter
        (fun p => productIsEligible p && !(decide (p.id ∈ ([1, 2, 3, 4, 5] : List Nat))))).length) := by
  constructor
  · with_unfolding_all decide
  · decide

/-- C3 (amended): `len(output) ≤ limit` always; and `len(output) = limit`
whenever the final trending query does not fail and its fetch window
(`limit' * 5` eligible rows when the accumulated exclusion list is
non-empty, `limit' * 2` otherwise, for `limit'` the remaining quota)
contains at least `limit'` products outside the accumulated exclusions. -/
theorem c3_quota_amended :
    (∀ (db : DB) (u : Option Nat) (limit : Nat) (E : List Nat), 0 < limit →
      (get_personalized_recommendations db u limit E).length ≤ limit) ∧
    (∀ (db : DB) (u : Option Nat) (limit : Nat) (E : List Nat), 0 < limit →
      db.fails Site.s5recs = false →
      limit - (recsBeforeTrending db u limit E).length ≤
        (trendingWindow db (limit - (recsBeforeTrending db u limit E).length)
          (E ++ (recsBeforeTrending db u limit E).map (fun p => p.id))).length →
      (get_personalized_recommendations db u limit E).length = limit) := by
  constructor
  · intro db u limit E _
    exact (get_personalized_good db u limit E).2.1
  · intro db u limit E hlim hf hw
    have hr : (recsBeforeTrending db u limit E).length ≤ limit :=
      (recsBeforeTrending_good db u limit E).2.1
    simp only [get_personalized_recommendations, fillStep]
    by_cases hlt : (recsBeforeTrending db u limit E).length < limit
    · rw [if_pos hlt]
      have h5 := strat5_length_eq hf (by omega) hw
      rw [List.length_take, List.length_append, h5]
      omega
    · rw [if_neg hlt]
      rw [List.length_take]
      omega

theorem c3_quota_amended_witness :
    0 < 1 ∧ cdbTrend.fails Site.s5recs = false ∧
      1 - (recsBeforeTrending cdbTrend none 1 []).length ≤
        (trendingWindow cdbTrend (1 - (recsBeforeTrending cdbTrend none 1 []).length)
          ([] ++ (recsBeforeTrending cdbTrend none 1 []).map (fun p => p.id))).length ∧
      (get_personalized_recommendations cdbTrend none 1 []).length = 1 :=
  ⟨by decide, by decide, by with_unfolding_all decide,
    c3_quota_amended.2 cdbTrend none 1 [] (by decide) (by decide) (by with_unfolding_all decide)⟩

/-- C4 (counterexample): for an anonymous request the code does not rank the
whole eligible catalog — the `limit * 2` fetch window can cut off the
highest-scoring product, so the output differs from the claim's
sort-everything description. -/
theorem c4_anonymous_counterexample :
    get_personalized_recommendations cdbTrend none 1 [] ≠ trendingClaimed cdbTrend 1 [] := by
  with_unfolding_all decide

/-- C4 (amended): for every anonymous request whose trending query does not
fail, the output consists of the first `trendingFetchLimit` eligible catalog
products (in retrieval order), minus `E`, ranked by
`trending_score * 1.0 + purchase_count * 10.0 + view_count * 0.1`
descending with stable ties, truncated to `limit`. -/
theorem c4_anonymous_amended (db : DB) (limit : Nat) (E : List Nat)
    (hf : db.fails Site.s5recs = false) :
    get_personalized_recommendations db none limit E = trendingWindowedSpec db limit E := by
  simp only [get_personalized_recommendations, recsBeforeTrending, fillStep, List.length_nil,
    List.map_nil, List.append_nil, List.nil_append, Nat.sub_zero]
  by_cases hlim : 0 < limit
  · rw [if_pos hlim, strat5_eq_windowed hf]
    simp [trendingWindowedSpec, List.take_take]
  · rw [if_neg hlim]
    have : limit = 0 := by omega
    subst this
    simp [trendingWindowedSpec]

theorem c4_anonymous_amended_witness :
    cdbTrend.fails Site.s5recs = false ∧
      get_personalized_recommendations cdbTrend none 1 [] = trendingWindowedSpec cdbTrend 1 [] :=
  ⟨by decide, c4_anonymous_amended cdbTrend 1 [] (by decide)⟩

/-- C5 (counterexample): the collaborative strategy's returned list is NOT
ordered by association count — the product-detail query returns catalog
retrieval order, so the weaker association (product 2) precedes the
stronger one (product 3). -/
theorem c5_collaborative_counterexample :
    _get_collaborative_recommendations cdbCollab 1 2 [] ≠ collaborativeClaimed cdbCollab 1 2 [] := by
  with_unfolding_all decide

/-- C5 (amended): with no query failure, the collaborative strategy draws
its candidate ids from the other side of the top `limit * 2` association
pairs matching the user's completed purchases (count-descending; reverse
orientation only when the forward lookup yields nothing), excludes
purchased ids and the exclusion set, and returns the eligible catalog rows
with those ids in catalog retrieval order, capped at `limit`. -/
theorem c5_collaborative_amended (db : DB) (user_id limit : Nat) (E : List Nat)
    (h1 : db.fails Site.s4orders = false) (h2 : db.fails Site.s4items = false)
    (h3 : db.fails Site.s4assocF = false) (h4 : db.fails Site.s4assocR = false)
    (h5 : db.fails Site.s4products = false) :
    _get_collaborative_recommendations db user_id limit E =
      collaborativeAmended db user_id limit E := by
  simp only [_get_collaborative_recommendations, collaborativeAmended,
    runQ_nofail h1, runQ_nofail h2, runQ_nofail h3, runQ_nofail h4, runQ_nofail h5]
  split
  · -- the user has no completed orders
    next ho =>
    rw [List.isEmpty_iff.mp ho]
    simp [sortByDesc_nil]
  · next ho =>
    split
    · -- the user's orders have no items
      next hi =>
      rw [List.isEmpty_iff.mp hi]
      simp [sortByDesc_nil]
    · next hi =>
      split
      · -- forward lookup empty: reverse orientation
        next hf =>
        split
        · -- reverse lookup empty as well
          next hr =>
          rw [List.isEmpty_iff.mp hr]
          simp
        · next hr =>
          split
          · -- all candidates excluded
            next hrec =>
            rw [List.isEmpty_iff.mp hrec]
            simp
          · next hrec => rfl
      · -- forward lookup non-empty
        next hf =>
        split
        · next hrec =>
          rw [List.isEmpty_iff.mp hrec]
          simp
        · next hrec => rfl

theorem c5_collaborative_amended_witness :
    cdbCollab.fails Site.s4orders = false ∧ cdbCollab.fails Site.s4products = false ∧
      _get_collaborative_recommendations cdbCollab 1 2 [] = collaborativeAmended cdbCollab 1 2 [] :=
  ⟨by decide, by decide,
    c5_collaborative_amended cdbCollab 1 2 [] (by decide) (by decide) (by decide) (by decide)
      (by decide)⟩

/-- C6 (counterexample): the claim's "union of the top-limit associated
products, de-duplicated, capped at limit" also contains ineligible
products; the code's final detail query filters to active, in-stock rows,
so an inactive associated product is dropped. -/
theorem c6_fbt_counterexample :
    get_frequently_bought_together cdbFbt 1 4 ≠ fbtClaimed cdbFbt 1 4 := by
  with_unfolding_all decide

/-- C6 (amended): with no query failure, the result consists of the active,
in-stock catalog products (in retrieval order) whose ids lie in the
de-duplicated union of the top-`limit` forward and top-`limit` reverse
associated ids, capped at `limit` before the eligibility filter. -/
theorem c6_fbt_amended (db : DB) (product_id limit : Nat)
    (h1 : db.fails Site.fbtF = false) (h2 : db.fails Site.fbtR = false)
    (h3 : db.fails Site.fbtProducts = false) :
    get_frequently_bought_together db product_id limit = fbtAmended db product_id limit := by
  simp only [get_frequently_bought_together, fbtAmended, runQ_nofail h1, runQ_nofail h2,
    runQ_nofail h3]
  split
  · next hids =>
    rw [List.isEmpty_iff.mp hids]
    simp
  · next hids => rfl

theorem c6_fbt_amended_witness :
    cdbFbt.fails Site.fbtF = false ∧
      get_frequently_bought_together cdbFbt 1 4 = fbtAmended cdbFbt 1 4 :=
  ⟨by decide, c6_fbt_amended cdbFbt 1 4 (by decide) (by decide) (by decide)⟩

/-! ### Helper lemmas for the priority-ordering claim -/

theorem fillStep_tail {db : DB} (limit : Nat) (E : List Nat) (r : List Product)
    (s : Nat → List Nat → List Product)
    (hs : ∀ q E', GoodStrat db E' q (s q E')) :
    ∃ t, fillStep limit E r s = r ++ t ∧
      ∀ x ∈ t, x.id ∉ E ++ r.map (fun p => p.id) := by
  unfold fillStep
  split
  · exact ⟨_, rfl, fun x hx => ((hs _ _).1 x hx).2⟩
  · exact ⟨[], (List.append_nil r).symm, by simp⟩

theorem c7_decomp (db : DB) (uid limit : Nat) (E : List Nat)
    (hq : (_get_purchase_history_recommendations db uid limit E).length < limit) :
    ∃ w, get_personalized_recommendations db (some uid) limit E =
        ((_get_purchase_history_recommendations db uid limit E ++
          _get_cart_based_recommendations db uid
            (limit - (_get_purchase_history_recommendations db uid limit E).length)
            (E ++ (_get_purchase_history_recommendations db uid limit E).map (fun p => p.id)))
          ++ w).take limit ∧
      ∀ x ∈ w, x.id ∉ (_get_purchase_history_recommendations db uid limit E).map (fun p => p.id) := by
  have e2 : fillStep limit E (_get_purchase_history_recommendations db uid limit E)
      (_get_cart_based_recommendations db uid)
      = _get_purchase_history_recommendations db uid limit E ++
        _get_cart_based_recommendations db uid
          (limit - (_get_purchase_history_recommendations db uid limit E).length)
          (E ++ (_get_purchase_history_recommendations db uid limit E).map (fun p => p.id)) := by
    rw [fillStep, if_pos hq]
  obtain ⟨t3, e3, h3⟩ := fillStep_tail limit E
    (_get_purchase_history_recommendations db uid limit E ++
      _get_cart_based_recommendations db uid
        (limit - (_get_purchase_history_recommendations db uid limit E).length)
        (E ++ (_get_purchase_history_recommendations db uid limit E).map (fun p => p.id)))
    (_get_browsing_history_recommendations db uid) (fun q E' => strat3_good db uid q E')
  obtain ⟨t4, e4, h4⟩ := fillStep_tail limit E _
    (_get_collaborative_recommendations db uid) (fun q E' => strat4_good db uid q E')
  obtain ⟨t5, e5, h5⟩ := fillStep_tail limit E _
    (_get_trending_products db) (fun q E' => strat5_good db q E')
  refine ⟨t3 ++ t4 ++ t5, ?_, ?_⟩
  · simp only [get_personalized_recommendations, recsBeforeTrending, afterStrat1]
    rw [e2, e3, e4, e5]
    simp [List.append_assoc]
  · intro x hx hmem
    rcases List.mem_append.mp hx with hx' | hx5
    · rcases List.mem_append.mp hx' with hx3 | hx4
      · refine h3 x hx3 (List.mem_append_right E ?_)
        rw [List.map_append]
        exact List.mem_append_left _ hmem
      · refine h4 x hx4 (List.mem_append_right E ?_)
        rw [List.map_append, List.map_append]
        exact List.mem_append_left _ (List.mem_append_left _ hmem)
    · refine h5 x hx5 (List.mem_append_right E ?_)
      rw [List.map_append, List.map_append, List.map_append]
      exact List.mem_append_left _ (List.mem_append_left _ (List.mem_append_left _ hmem))

/-- C7: whenever the purchase-history strategy leaves quota (its output is
shorter than `limit`), its candidates form a prefix of the final output,
the cart-based candidates genuinely contribute (the output is longer than
the purchase-history part when the cart strategy returned something), and
every purchase-history candidate sits strictly before every cart-based
candidate. -/
theorem c7_priority_ordering (db : DB) (uid limit : Nat) (E : List Nat)
    (hq : (_get_purchase_history_recommendations db uid limit E).length < limit)
    (hp : _get_purchase_history_recommendations db uid limit E ≠ [])
    (hc : _get_cart_based_recommendations db uid
      (limit - (_get_purchase_history_recommendations db uid limit E).length)
      (E ++ (_get_purchase_history_recommendations db uid limit E).map (fun p => p.id)) ≠ []) :
    (∃ t, get_personalized_recommendations db (some uid) limit E =
        _get_purchase_history_recommendations db uid limit E ++ t) ∧
    (_get_purchase_history_recommendations db uid limit E).length <
      (get_personalized_recommendations db (some uid) limit E).length ∧
    ∀ i j (hi : i < (get_personalized_recommendations db (some uid) limit E).length)
      (hj : j < (get_personalized_recommendations db (some uid) limit E).length),
      (get_personalized_recommendations db (some uid) limit E)[i] ∈
        _get_purchase_history_recommendations db uid limit E →
      (get_personalized_recommendations db (some uid) limit E)[j] ∈
        _get_cart_based_recommendations db uid
          (limit - (_get_purchase_history_recommendations db uid limit E).length)
          (E ++ (_get_purchase_history_recommendations db uid limit E).map (fun p => p.id)) →
      i < j := by
  obtain ⟨w, eo, hwid⟩ := c7_decomp db uid limit E hq
  have hCid : ∀ x ∈ _get_cart_based_recommendations db uid
      (limit - (_get_purchase_history_recommendations db uid limit E).length)
      (E ++ (_get_purchase_history_recommendations db uid limit E).map (fun p => p.id)),
      x.id ∉ (_get_purchase_history_recommendations db uid limit E).map (fun p => p.id) :=
    fun x hx hmem =>
      ((strat2_good db uid
        (limit - (_get_purchase_history_recommendations db uid limit E).length)
        (E ++ (_get_purchase_history_recommendations db uid limit E).map (fun p => p.id))).1
        x hx).2 (List.mem_append_right E hmem)
  have eo2 : get_personalized_recommendations db (some uid) limit E =
      _get_purchase_history_recommendations db uid limit E ++
        (_get_cart_based_recommendations db uid
          (limit - (_get_purchase_history_recommendations db uid limit E).length)
          (E ++ (_get_purchase_history_recommendations db uid limit E).map (fun p => p.id)) ++ w).take
          (limit - (_get_purchase_history_recommendations db uid limit E).length) := by
    rw [eo, List.append_assoc, List.take_append_eq_append_take,
      List.take_of_length_le (le_of_lt hq)]
  have htail : ∀ x ∈ (_get_cart_based_recommendations db uid
      (limit - (_get_purchase_history_recommendations db uid limit E).length)
      (E ++ (_get_purchase_history_recommendations db uid limit E).map (fun p => p.id)) ++ w).take
        (limit - (_get_purchase_history_recommendations db uid limit E).length),
      x.id ∉ (_get_purchase_history_recommendations db uid limit E).map (fun p => p.id) := by
    intro x hx
    rcases List.mem_append.mp (List.mem_of_mem_take hx) with hxc | hxw
    · exact hCid x hxc
    · exact hwid x hxw
  refine ⟨⟨_, eo2⟩, ?_, ?_⟩
  · rw [eo2, List.length_append, List.length_take]
    have hcpos : 0 < (_get_cart_based_recommendations db uid
        (limit - (_get_purchase_history_recommendations db uid limit E).length)
        (E ++ (_get_purchase_history_recommendations db uid limit E).map (fun p => p.id))).length :=
      List.length_pos.mpr hc
    rw [List.length_append]
    omega
  · intro i j hi hj hiP hjC
    rw [eo2] at hi hj
    simp only [eo2] at hiP hjC
    have hiP' : i < (_get_purchase_history_recommendations db uid limit E).length := by
      by_contra hge
      push_neg at hge
      have hlt : i - (_get_purchase_history_recommendations db uid limit E).length <
          ((_get_cart_based_recommendations db uid
            (limit - (_get_purchase_history_recommendations db uid limit E).length)
            (E ++ (_get_purchase_history_recommendations db uid limit E).map (fun p => p.id)) ++ w).take
            (limit - (_get_purchase_history_recommendations db uid limit E).length)).length := by
        rw [List.length_append] at hi
        omega
      rw [List.getElem_append_right hge] at hiP
      exact htail _ (List.getElem_mem hlt) (List.mem_map_of_mem (fun p => p.id) hiP)
    have hjP : (_get_purchase_history_recommendations db uid limit E).length ≤ j := by
      by_contra hlt
      push_neg at hlt
      rw [List.getElem_append_left hlt] at hjC
      exact hCid _ hjC (List.mem_map_of_mem (fun p => p.id) (List.getElem_mem hlt))
    omega

theorem c7_priority_ordering_witness :
    ((_get_purchase_history_recommendations wdbC7 1 4 []).length < 4 ∧
      _get_purchase_history_recommendations wdbC7 1 4 [] ≠ [] ∧
      _get_cart_based_recommendations wdbC7 1
        (4 - (_get_purchase_history_recommendations wdbC7 1 4 []).length)
        ([] ++ (_get_purchase_history_recommendations wdbC7 1 4 []).map (fun p => p.id)) ≠ []) ∧
    (∃ t, get_personalized_recommendations wdbC7 (some 1) 4 [] =
        _get_purchase_history_recommendations wdbC7 1 4 [] ++ t) :=
  ⟨⟨by with_unfolding_all decide, by with_unfolding_all decide, by with_unfolding_all decide⟩,
    (c7_priority_ordering wdbC7 1 4 [] (by with_unfolding_all decide)
      (by with_unfolding_all decide) (by with_unfolding_all decide)).1⟩

/-! ### Helper lemmas for the failure-isolation claim: a strategy can only
return a non-empty list when every query site on its executed path
succeeded, so a failure at any of its sites empties it. -/

theorem categoryRecsBlock_fails {db : DB} {site : Site} {categories excl : List Nat}
    {limit : Nat} {key : Product → Int} {l : List Product}
    (h : categoryRecsBlock db site categories excl limit key = some l) :
    db.fails site = false := by
  simp only [categoryRecsBlock] at h
  split at h
  · split at h
    · exact absurd h (by simp)
    next result heq => exact (runQ_eq_some_iff.mp heq).1
  · exact (runQ_eq_some_iff.mp h).1

theorem strat1_flags_of_ne_nil {db : DB} {uid q : Nat} {E' : List Nat}
    (h : _get_purchase_history_recommendations db uid q E' ≠ []) :
    db.fails Site.s1orders = false ∧ db.fails Site.s1items = false ∧
      db.fails Site.s1cats = false ∧ db.fails Site.s1recs = false := by
  simp only [_get_purchase_history_recommendations] at h
  split at h
  · exact absurd rfl h
  next ordersData h1 =>
    have f1 := (runQ_eq_some_iff.mp h1).1
    split at h
    · exact absurd rfl h
    split at h
    · exact absurd rfl h
    next itemsData h2 =>
      have f2 := (runQ_eq_some_iff.mp h2).1
      split at h
      · exact absurd rfl h
      split at h
      · exact absurd rfl h
      next catsData h3 =>
        have f3 := (runQ_eq_some_iff.mp h3).1
        split at h
        · exact absurd rfl h
        split at h
        · exact absurd rfl h
        split at h
        · exact absurd rfl h
        next l h4 => exact ⟨f1, f2, f3, categoryRecsBlock_fails h4⟩

theorem strat2_flags_of_ne_nil {db : DB} {uid q : Nat} {E' : List Nat}
    (h : _get_cart_based_recommendations db uid q E' ≠ []) :
    db.fails Site.s2cart = false ∧ db.fails Site.s2recs = false := by
  simp only [_get_cart_based_recommendations] at h
  split at h
  · exact absurd rfl h
  next cartData h1 =>
    have f1 := (runQ_eq_some_iff.mp h1).1
    split at h
    · exact absurd rfl h
    split at h
    · exact absurd rfl h
    split at h
    · exact absurd rfl h
    next l h2 => exact ⟨f1, categoryRecsBlock_fails h2⟩

theorem strat3_flags_of_ne_nil {db : DB} {uid q : Nat} {E' : List Nat}
    (h : _get_browsing_history_recommendations db uid q E' ≠ []) :
    db.fails Site.s3views = false ∧ db.fails Site.s3recs = false := by
  simp only [_get_browsing_history_recommendations] at h
  split at h
  · exact absurd rfl h
  next viewsData h1 =>
    have f1 := (runQ_eq_some_iff.mp h1).1
    split at h
    · exact absurd rfl h
    split at h
    · exact absurd rfl h
    split at h
    · exact absurd rfl h
    next l h2 => exact ⟨f1, categoryRecsBlock_fails h2⟩

theorem strat4_flags_of_ne_nil {db : DB} {uid q : Nat} {E' : List Nat}
    (h : _get_collaborative_recommendations db uid q E' ≠ []) :
    db.fails Site.s4orders = false ∧ db.fails Site.s4items = false ∧
      db.fails Site.s4assocF = false ∧ db.fails Site.s4products = false := by
  simp only [_get_collaborative_recommendations] at h
  split at h
  · exact absurd rfl h
  next ordersData h1 =>
    have f1 := (runQ_eq_some_iff.mp h1).1
    split at h
    · exact absurd rfl h
    split at h
    · exact absurd rfl h
    next itemsData h2 =>
      have f2 := (runQ_eq_some_iff.mp h2).1
      split at h
      · exact absurd rfl h
      split at h
      · exact absurd rfl h
      next assocF h3 =>
        have f3 := (runQ_eq_some_iff.mp h3).1
        split at h
        · -- forward window empty: reverse-orientation path
          split at h
          · exact absurd rfl h
          next assocR h4 =>
            split at h
            · exact absurd rfl h
            split at h
            · exact absurd rfl h
            split at h
            · exact absurd rfl h
            next result h5 => exact ⟨f1, f2, f3, (runQ_eq_some_iff.mp h5).1⟩
        · -- forward path
          split at h
          · exact absurd rfl h
          split at h
          · exact absurd rfl h
          next result h5 => exact ⟨f1, f2, f3, (runQ_eq_some_iff.mp h5).1⟩

theorem strat5_flags_of_ne_nil {db : DB} {q : Nat} {E' : List Nat}
    (h : _get_trending_products db q E' ≠ []) :
    db.fails Site.s5recs = false := by
  simp only [_get_trending_products] at h
  split at h
  · exact absurd rfl h
  next resultData h1 => exact (runQ_eq_some_iff.mp h1).1

/-- Strategy 4 reaches its reverse-orientation query only when the forward
window is empty; a failure there then empties the strategy. -/
theorem strat4_reverse_fail_empty {db : DB} {uid q : Nat} {E' : List Nat}
    (h : db.fails Site.s4assocR = true) (hw : collabForwardWindow db uid q = []) :
    _get_collaborative_recommendations db uid q E' = [] := by
  simp only [_get_collaborative_recommendations]
  split
  · rfl
  next ordersData h1 =>
    obtain ⟨-, rfl⟩ := runQ_eq_some_iff.mp h1
    split
    · rfl
    split
    · rfl
    next itemsData h2 =>
      obtain ⟨-, rfl⟩ := runQ_eq_some_iff.mp h2
      split
      · rfl
      split
      · rfl
      next assocF h3 =>
        obtain ⟨-, rfl⟩ := runQ_eq_some_iff.mp h3
        have hnil : ((sortByDesc (fun a => a.association_count)
            (db.product_associations.filter (fun a => decide (a.product_a_id ∈
              (db.order_items.filter (fun oi => decide (oi.order_id ∈
                (db.orders.filter
                  (fun o => decide (o.user_id = uid ∧ o.payment_status = "completed"))).map
                  (fun o => o.id)))).map (fun oi => oi.product_id))))).take (q * 2)) = [] := hw
        rw [hnil]
        simp [runQ, h]

/-- The aggregator is definitionally the chain of fill steps over the five
strategies. -/
theorem get_personalized_eq_chain (db : DB) (uid limit : Nat) (E : List Nat) :
    get_personalized_recommendations db (some uid) limit E =
      chain limit E (_get_purchase_history_recommendations db uid limit E)
        (_get_cart_based_recommendations db uid)
        (_get_browsing_history_recommendations db uid)
        (_get_collaborative_recommendations db uid)
        (_get_trending_products db) := rfl

/-- C8: whichever strategy one of the failing query sites belongs to, that
strategy returns the empty list (for every quota and exclusion list it
might be called with) and `get_personalized_recommendations` equals the
chain in which that strategy contributes nothing while the remaining
strategies run unchanged; strategy 4's reverse-orientation query is only
executed when the forward window is empty, and its failure empties the
strategy exactly then.  The embedded pipeline is a total function, so no
failure ever reaches the caller. -/
theorem c8_failure_isolated (db : DB) (uid limit : Nat) (E : List Nat) :
    (∀ s ∈ [Site.s1orders, Site.s1items, Site.s1cats, Site.s1recs], db.fails s = true →
      _get_purchase_history_recommendations db uid limit E = [] ∧
      get_personalized_recommendations db (some uid) limit E =
        chain limit E []
          (_get_cart_based_recommendations db uid)
          (_get_browsing_history_recommendations db uid)
          (_get_collaborative_recommendations db uid)
          (_get_trending_products db)) ∧
    (∀ s ∈ [Site.s2cart, Site.s2recs], db.fails s = true →
      (∀ q E', _get_cart_based_recommendations db uid q E' = []) ∧
      get_personalized_recommendations db (some uid) limit E =
        chain limit E (_get_purchase_history_recommendations db uid limit E)
          (fun _ _ => [])
          (_get_browsing_history_recommendations db uid)
          (_get_collaborative_recommendations db uid)
          (_get_trending_products db)) ∧
    (∀ s ∈ [Site.s3views, Site.s3recs], db.fails s = true →
      (∀ q E', _get_browsing_history_recommendations db uid q E' = []) ∧
      get_personalized_recommendations db (some uid) limit E =
        chain limit E (_get_purchase_history_recommendations db uid limit E)
          (_get_cart_based_recommendations db uid)
          (fun _ _ => [])
          (_get_collaborative_recommendations db uid)
          (_get_trending_products db)) ∧
    (∀ s ∈ [Site.s4orders, Site.s4items, Site.s4assocF, Site.s4products], db.fails s = true →
      (∀ q E', _get_collaborative_recommendations db uid q E' = []) ∧
      get_personalized_recommendations db (some uid) limit E =
        chain limit E (_get_purchase_history_recommendations db uid limit E)
          (_get_cart_based_recommendations db uid)
          (_get_browsing_history_recommendations db uid)
          (fun _ _ => [])
          (_get_trending_products db)) ∧
    (db.fails Site.s4assocR = true →
      ∀ q E', collabForwardWindow db uid q = [] →
        _get_collaborative_recommendations db uid q E' = []) ∧
    (db.fails Site.s5recs = true →
      (∀ q E', _get_trending_products db q E' = []) ∧
      get_personalized_recommendations db (some uid) limit E =
        chain limit E (_get_purchase_history_recommendations db uid limit E)
          (_get_cart_based_recommendations db uid)
          (_get_browsing_history_recommendations db uid)
          (_get_collaborative_recommendations db uid)
          (fun _ _ => [])) := by
  have e1 : ∀ s ∈ [Site.s1orders, Site.s1items, Site.s1cats, Site.s1recs],
      db.fails s = true → ∀ q E', _get_purchase_history_recommendations db uid q E' = [] := by
    intro s hs hf q E'
    by_contra hne
    obtain ⟨f1, f2, f3, f4⟩ := strat1_flags_of_ne_nil hne
    simp only [List.mem_cons, List.not_mem_nil, or_false] at hs
    rcases hs with rfl | rfl | rfl | rfl
    · rw [hf] at f1; exact absurd f1 (by decide)
    · rw [hf] at f2; exact absurd f2 (by decide)
    · rw [hf] at f3; exact absurd f3 (by decide)
    · rw [hf] at f4; exact absurd f4 (by decide)
  have e2 : ∀ s ∈ [Site.s2cart, Site.s2recs],
      db.fails s = true → ∀ q E', _get_cart_based_recommendations db uid q E' = [] := by
    intro s hs hf q E'
    by_contra hne
    obtain ⟨f1, f2⟩ := strat2_flags_of_ne_nil hne
    simp only [List.mem_cons, List.not_mem_nil, or_false] at hs
    rcases hs with rfl | rfl
    · rw [hf] at f1; exact absurd f1 (by decide)
    · rw [hf] at f2; exact absurd f2 (by decide)
  have e3 : ∀ s ∈ [Site.s3views, Site.s3recs],
      db.fails s = true → ∀ q E', _get_browsing_history_recommendations db uid q E' = [] := by
    intro s hs hf q E'
    by_contra hne
    obtain ⟨f1, f2⟩ := strat3_flags_of_ne_nil hne
    simp only [List.mem_cons, List.not_mem_nil, or_false] at hs
    rcases hs with rfl | rfl
    · rw [hf] at f1; exact absurd f1 (by decide)
    · rw [hf] at f2; exact absurd f2 (by decide)
  have e4 : ∀ s ∈ [Site.s4orders, Site.s4items, Site.s4assocF, Site.s4products],
      db.fails s = true → ∀ q E', _get_collaborative_recommendations db uid q E' = [] := by
    intro s hs hf q E'
    by_contra hne
    obtain ⟨f1, f2, f3, f4⟩ := strat4_flags_of_ne_nil hne
    simp only [List.mem_cons, List.not_mem_nil, or_false] at hs
    rcases hs with rfl | rfl | rfl | rfl
    · rw [hf] at f1; exact absurd f1 (by decide)
    · rw [hf] at f2; exact absurd f2 (by decide)
    · rw [hf] at f3; exact absurd f3 (by decide)
    · rw [hf] at f4; exact absurd f4 (by decide)
  have e5 : db.fails Site.s5recs = true → ∀ q E', _get_trending_products db q E' = [] := by
    intro hf q E'
    by_contra hne
    have f1 := strat5_flags_of_ne_nil hne
    rw [hf] at f1; exact absurd f1 (by decide)
  refine ⟨?_, ?_, ?_, ?_, ?_, ?_⟩
  · intro s hs hf
    refine ⟨e1 s hs hf limit E, ?_⟩
    rw [get_personalized_eq_chain, e1 s hs hf limit E]
  · intro s hs hf
    refine ⟨e2 s hs hf, ?_⟩
    rw [get_personalized_eq_chain,
      show _get_cart_based_recommendations db uid = fun _ _ => ([] : List Product) from
        funext fun q => funext fun E' => e2 s hs hf q E']
  · intro s hs hf
    refine ⟨e3 s hs hf, ?_⟩
    rw [get_personalized_eq_chain,
      show _get_browsing_history_recommendations db uid = fun _ _ => ([] : List Product) from
        funext fun q => funext fun E' => e3 s hs hf q E']
  · intro s hs hf
    refine ⟨e4 s hs hf, ?_⟩
    rw [get_personalized_eq_chain,
      show _get_collaborative_recommendations db uid = fun _ _ => ([] : List Product) from
        funext fun q => funext fun E' => e4 s hs hf q E']
  · intro hf q E' hw
    exact strat4_reverse_fail_empty hf hw
  · intro hf
    refine ⟨e5 hf, ?_⟩
    rw [get_personalized_eq_chain,
      show _get_trending_products db = fun _ _ => ([] : List Product) from
        funext fun q => funext fun E' => e5 hf q E']

theorem c8_failure_isolated_witness :
    wdbFail.fails Site.s1orders = true ∧
      _get_purchase_history_recommendations wdbFail 1 2 [] = [] ∧
      get_personalized_recommendations wdbFail (some 1) 2 [] =
        chain 2 [] [] (_get_cart_based_recommendations wdbFail 1)
          (_get_browsing_history_recommendations wdbFail 1)
          (_get_collaborative_recommendations wdbFail 1)
          (_get_trending_products wdbFail) :=
  ⟨by decide,
    ((c8_failure_isolated wdbFail 1 2 []).1 Site.s1orders (by decide) (by decide)).1,
    ((c8_failure_isolated wdbFail 1 2 []).1 Site.s1orders (by decide) (by decide)).2⟩

/-- C9: `track_product_view` always returns a boolean, never an exception:
it returns `True` exactly when the view insert succeeds and the view-count
increment succeeds either through the RPC (which requires the product to
exist) or through the fetch-and-update fallback (which requires the single
row fetch and the update to succeed); every other configuration — insert
failure, non-existent product id, failed increment — returns `False`. -/
theorem c9_track_view_total (db : DB) (product_id : Nat) (user_id session_id : Option Nat)
    (source : Option String) :
    track_product_view db product_id user_id session_id source = true ↔
      (db.fails Site.tvInsert = false ∧
        ((db.fails Site.tvRpc = false ∧ product_id ∈ db.products.map Product.id) ∨
         (db.fails Site.tvSelect = false ∧
           (db.products.filter (fun p => decide (p.id = product_id))).length = 1 ∧
           db.fails Site.tvUpdate = false))) := by
  have hmemiff : product_id ∈ db.products.map Product.id ↔
      (db.products.any (fun p => decide (p.id = product_id))) = true := by
    simp [List.any_eq_true, List.mem_map]
  unfold track_product_view rpcIncrementViewCount selectSingleViewCount
  by_cases hIns : db.fails Site.tvInsert
  · simp [runQ, hIns]
  · by_cases hRpc : db.fails Site.tvRpc
    · by_cases hSel : db.fails Site.tvSelect
      · simp [runQ, hIns, hRpc, hSel]
      · rcases hF : db.products.filter (fun p => decide (p.id = product_id)) with _ | ⟨a, _ | ⟨b, t⟩⟩
        · simp [runQ, hIns, hRpc, hSel, hF, single?]
        · by_cases hUpd : db.fails Site.tvUpdate
          · simp [runQ, hIns, hRpc, hSel, hUpd, hF, single?]
          · simp [runQ, hIns, hRpc, hSel, hUpd, hF, single?]
        · simp [runQ, hIns, hRpc, hSel, hF, single?]
    · by_cases hAny : (db.products.any (fun p => decide (p.id = product_id))) = true
      · simp [runQ, hIns, hRpc, hAny, hmemiff]
      · have hF : db.products.filter (fun p => decide (p.id = product_id)) = [] := by
          rw [List.filter_eq_nil_iff]
          intro a ha
          simp only [decide_eq_true_eq]
          intro hEq
          exact hAny (by simp only [List.any_eq_true, decide_eq_true_eq]; exact ⟨a, ha, hEq⟩)
        by_cases hSel : db.fails Site.tvSelect
        · simp [runQ, hIns, hRpc, hSel, hAny, hmemiff]
        · simp [runQ, hIns, hRpc, hSel, hAny, hmemiff, hF, single?]

theorem strat1Tr_eq (db : DB) (uid limit : Nat) (E : List Nat) :
    _get_purchase_history_recommendationsTr db uid limit E =
      (_get_purchase_history_recommendations db uid limit E, E) := by
  unfold _get_purchase_history_recommendationsTr _get_purchase_history_recommendations
  generalize runQ db Site.s1orders ((db.orders.filter
    (fun o => decide (o.user_id = uid ∧ o.payment_status = "completed"))).map (fun o => o.id)) = o1
  cases o1 with
  | none => rfl
  | some l1 =>
    cases l1 with
    | nil => rfl
    | cons a1 t1 =>
      dsimp only
      generalize runQ db Site.s1items ((db.order_items.filter
        (fun oi => decide (oi.order_id ∈ a1 :: t1))).map (fun oi => oi.product_id)) = o2
      cases o2 with
      | none => rfl
      | some l2 =>
        cases l2 with
        | nil => rfl
        | cons a2 t2 =>
          dsimp only
          generalize runQ db Site.s1cats ((db.products.filter
            (fun p => decide (p.id ∈ (a2 :: t2).dedup) && p.category.isSome)).map
            (fun p => p.category)) = o3
          cases o3 with
          | none => rfl
          | some l3 =>
            cases l3 with
            | nil => rfl
            | cons a3 t3 =>
              dsimp only
              by_cases hc : (((a3 :: t3).filterMap id).dedup).isEmpty = true
              · rw [if_pos hc, if_pos hc]
                rfl
              · rw [if_neg hc, if_neg hc]
                generalize categoryRecsBlock db Site.s1recs (((a3 :: t3).filterMap id).dedup)
                  ((E ++ (a2 :: t2).dedup).dedup) limit (fun p => p.purchase_count) = ob
                cases ob with
                | none => rfl
                | some l => rfl

/-- C10: neither `get_personalized_recommendations` nor the strategies it
calls mutate the caller-supplied `exclude_product_ids` list: threading the
object's value through every statement that touches it returns it
unchanged (in particular the shared mutable default `[]` can never be
polluted), and the threaded pipeline computes the same result as the plain
embedding. -/
theorem c10_no_mutation (db : DB) (uid : Nat) (user_id : Option Nat) (limit : Nat)
    (E : List Nat) :
    (_get_purchase_history_recommendationsTr db uid limit E).2 = E ∧
    (get_personalized_recommendationsTr db user_id limit E).2 = E ∧
    (get_personalized_recommendationsTr db user_id limit E).1 =
      get_personalized_recommendations db user_id limit E := by
  refine ⟨by rw [strat1Tr_eq], ?_, ?_⟩
  · cases user_id with
    | none => rfl
    | some u =>
      simp only [get_personalized_recommendationsTr, strat1Tr_eq]
  · cases user_id with
    | none =>
      simp only [get_personalized_recommendationsTr, get_personalized_recommendations,
        recsBeforeTrending, fillStep]
    | some u =>
      simp only [get_personalized_recommendationsTr, strat1Tr_eq,
        get_personalized_recommendations, recsBeforeTrending, afterStrat1, fillStep]

end RecommendationService

